import Mathlib

/-!
Verification development for the WCT2 photorealistic style transfer model
(`model.py`). The data model and operations referenced by the claims are
embedded shallowly: feature tensors become index functions over exact
rationals (or real matrices for the whitening-and-coloring transform),
the Keras graph construction in `build_wct_model` becomes a symbolic fold
over the layer name list, and the staged `transfer` pipeline becomes a
symbolic transcription of its data flow.  Components that live in the
repository's `ops.py` (not present under `src/`) are modelled from the
specification and marked as such in their doc comments.
-/

/-! ### Wavelet pooling and unpooling (spec-modelled, `ops.py`) -/

/-- A feature tensor at a fixed batch element and channel: spatial
dimensions together with an index function giving the value at each
spatial position.  Positions outside the `h × w` extent are irrelevant
padding carried by the total function. -/
structure FTensor where
  h : ℕ
  w : ℕ
  data : ℕ → ℕ → ℚ

/-- Modelled from the spec: `WaveLetPooling` of `ops.py` is not under
`src/`.  Per §4.1 the decomposition applies the fixed 2×2 Haar-type
orthogonal filter bank (averaging and differencing along rows and
columns) with stride 2, producing the four sub-bands LL, LH, HL, HH,
each of shape `(h/2, w/2)`.  Every kernel entry is `±1/2`. -/
def WaveLetPooling (t : FTensor) : FTensor × FTensor × FTensor × FTensor :=
  (⟨t.h / 2, t.w / 2, fun i j =>
      (t.data (2*i) (2*j) + t.data (2*i) (2*j+1)
        + t.data (2*i+1) (2*j) + t.data (2*i+1) (2*j+1)) / 2⟩,
   ⟨t.h / 2, t.w / 2, fun i j =>
      (- t.data (2*i) (2*j) + t.data (2*i) (2*j+1)
        - t.data (2*i+1) (2*j) + t.data (2*i+1) (2*j+1)) / 2⟩,
   ⟨t.h / 2, t.w / 2, fun i j =>
      (- t.data (2*i) (2*j) - t.data (2*i) (2*j+1)
        + t.data (2*i+1) (2*j) + t.data (2*i+1) (2*j+1)) / 2⟩,
   ⟨t.h / 2, t.w / 2, fun i j =>
      (t.data (2*i) (2*j) - t.data (2*i) (2*j+1)
        - t.data (2*i+1) (2*j) + t.data (2*i+1) (2*j+1)) / 2⟩)

/-- Modelled from the spec: `WaveLetUnPooling` of `ops.py` is not under
`src/`.  Per §4.1 the reconstruction is the exact inverse filter bank:
each sub-band is upsampled through the transposed kernel and the four
contributions are summed; the `original` reference tensor supplies the
output shape (shape/crop alignment). -/
def WaveLetUnPooling (ll lh hl hh original : FTensor) : FTensor :=
  ⟨original.h, original.w, fun p q =>
    (ll.data (p/2) (q/2)
      + (if q % 2 = 1 then (1:ℚ) else -1) * lh.data (p/2) (q/2)
      + (if p % 2 = 1 then (1:ℚ) else -1) * hl.data (p/2) (q/2)
      + (if p % 2 = 1 then (1:ℚ) else -1) * (if q % 2 = 1 then (1:ℚ) else -1)
          * hh.data (p/2) (q/2)) / 2⟩

/-- Shape incompatibility failure of the wavelet ops (spec §7 taxonomy). -/
inductive ShapeError where
  | mk : ShapeError
deriving DecidableEq

/-- Modelled from the spec: decomposition fails with `ShapeError` when the
input spatial dimensions are not divisible by 2 (§4.1 Failure). -/
def waveLetPoolingChecked (t : FTensor) :
    Except ShapeError (FTensor × FTensor × FTensor × FTensor) :=
  if 2 ∣ t.h ∧ 2 ∣ t.w then Except.ok (WaveLetPooling t)
  else Except.error ShapeError.mk

/-- Agreement of the spatial shapes of two sub-band tensors. -/
def sameShape (a b : FTensor) : Prop := a.h = b.h ∧ a.w = b.w

instance (a b : FTensor) : Decidable (sameShape a b) := by
  unfold sameShape; infer_instance

/-- Modelled from the spec: reconstruction fails with `ShapeError` when the
sub-band shapes are mismatched (§4.1 Failure). -/
def waveLetUnPoolingChecked (ll lh hl hh original : FTensor) :
    Except ShapeError FTensor :=
  if sameShape ll lh ∧ sameShape ll hl ∧ sameShape ll hh then
    Except.ok (WaveLetUnPooling ll lh hl hh original)
  else Except.error ShapeError.mk

/-- Concrete even-dimension tensor used to instantiate the round-trip
theorem. -/
def wdemoTensor : FTensor :=
  ⟨2, 2, fun i j => (3 * i + 5 * j + 1 : ℚ)⟩

/-- Concrete odd-dimension tensor exercising the decomposition shape
check. -/
def wbadTensor : FTensor :=
  ⟨3, 2, fun _ _ => (0 : ℚ)⟩

/-! ### Symbolic embedding of `build_wct_model` (`model.py` lines 92-148) -/

/-- Symbolic graph tensors: the input image, a convolution layer output,
one of the four outputs of a `WaveLetPooling` layer (band 0 = LL,
1 = LH, 2 = HL, 3 = HH), or a `WaveLetUnPooling` layer output. -/
inductive SymTensor where
  | inImg : SymTensor
  | conv : String → SymTensor → SymTensor
  | poolBand : ℕ → ℕ → SymTensor → SymTensor
  | unpoolT : ℕ → SymTensor → SymTensor → SymTensor → SymTensor → SymTensor → SymTensor
deriving DecidableEq, Inhabited

/-- Tags recording the provenance of a layer's weights: fresh random
initialization, a copy of the named VGG backbone layer's weights
(`layer.set_weights(vgg_model.get_layer(name).get_weights())`), an
optimizer update, or no weights at all (parameter-free layer). -/
inductive WTag where
  | initW : String → WTag
  | vggCopy : String → WTag
  | updW : ℕ → WTag
  | noW : WTag
deriving DecidableEq

/-- Kinds of layers appearing in the built `wct` model, classified by
their creation site in `build_wct_model`. -/
inductive LKind where
  | inputL : LKind
  | encodeConv : LKind
  | decodeConv : LKind
  | outputConv : LKind
  | wavePool : LKind
  | waveUnpool : LKind
deriving DecidableEq

/-- State of one Keras layer of the built model: its name, creation-site
kind, trainable flag (Keras default `true`), weight provenance, and
whether the layer owns any parameters at all (the wavelet ops and the
input layer are parameter-free, per spec §4.1/§4.5). -/
structure LayerSt where
  name : String
  kind : LKind
  trainable : Bool
  weights : WTag
  hasParams : Bool
deriving DecidableEq

/-- Whether the first character list is a prefix of the second. -/
def leadMatch : List Char → List Char → Bool
  | [], _ => true
  | _ :: _, [] => false
  | p :: ps, c :: cs => (p == c) && leadMatch ps cs

/-- Whether the second character list occurs as a contiguous run inside
the first. -/
def hasSub : List Char → List Char → Bool
  | [], pat => pat.isEmpty
  | c :: cs, pat => leadMatch pat (c :: cs) || hasSub cs pat

/-- Substring membership test mirroring Python's `pat in s`. -/
def strContains (s pat : String) : Bool := hasSub s.data pat.data

/-- Fuel-driven replacement of every non-overlapping occurrence of `pat`
by `rep`, scanning left to right; the fuel is the input length, enough
to process every character. -/
def replaceFuel : ℕ → List Char → List Char → List Char → List Char
  | 0, s, _, _ => s
  | Nat.succ _, [], _, _ => []
  | Nat.succ f, c :: cs, pat, rep =>
      if !pat.isEmpty && leadMatch pat (c :: cs) then
        rep ++ replaceFuel f (List.drop (pat.length - 1) cs) pat rep
      else c :: replaceFuel f cs pat rep

/-- Replacement of every occurrence of a nonempty pattern, mirroring
Python's `s.replace(pat, rep)`. -/
def strReplace (s pat rep : String) : String :=
  ⟨replaceFuel s.data.length s.data pat.data rep.data⟩

/-- The ordered backbone layer list `VGG_LAYERS` (`model.py` lines 27-33). -/
def VGG_LAYERS : List String :=
  ["block1_conv1", "block1_conv2", "block2_conv1", "block2_conv2",
   "block3_conv1", "block3_conv2", "block3_conv3", "block3_conv4",
   "block4_conv1"]

/-- The encoder layers after which a `WaveLetPooling` is inserted
(`model.py` line 117). -/
def poolAfterLayers : List String :=
  ["block1_conv2", "block2_conv2", "block3_conv4"]

/-- The decoder layers at which a channel-halving convolution is followed
by a `WaveLetUnPooling` (`model.py` line 129). -/
def unpoolAtLayers : List String :=
  ["block4_conv1", "block3_conv1", "block2_conv1"]

/-- A freshly created convolution layer (Keras `Conv2D`: trainable by
default, randomly initialized weights). -/
def convLayerSt (name : String) (kind : LKind) : LayerSt :=
  ⟨name, kind, true, WTag.initW name, true⟩

/-- A freshly created wavelet layer.  Modelled from the spec: the wavelet
ops of `ops.py` are fixed filter banks with no parameters (§4.1: a
deterministic, non-trainable linear operator, not a learned layer). -/
def waveLayerSt (name : String) (kind : LKind) : LayerSt :=
  ⟨name, kind, true, WTag.noW, false⟩

/-- Encoder construction state: the current main-branch tensor, the
`skips` list of retained bundles `[original, lh, hl, hh]`, the running
pooling id `id_`, the layers created so far, and the main-branch tensor
recorded right after each pooling (the LL band that continues). -/
structure EncBuild where
  x : SymTensor
  skips : List (List SymTensor)
  pid : ℕ
  layers : List LayerSt
  llAfter : List SymTensor

/-- One iteration of the encoder loop (`model.py` lines 115-122): apply
the copied convolution; after the three designated layers, insert a
wavelet pooling, retain `[x, lh, hl, hh]` on the skip stack, and
continue with the LL band only. -/
def encStep (s : EncBuild) (layer : String) : EncBuild :=
  let x := SymTensor.conv (layer ++ "_encode") s.x
  let ls := s.layers ++ [convLayerSt (layer ++ "_encode") LKind.encodeConv]
  if poolAfterLayers.contains layer then
    let ll := SymTensor.poolBand s.pid 0 x
    let lh := SymTensor.poolBand s.pid 1 x
    let hl := SymTensor.poolBand s.pid 2 x
    let hh := SymTensor.poolBand s.pid 3 x
    ⟨ll, s.skips ++ [[x, lh, hl, hh]], s.pid + 1,
      ls ++ [waveLayerSt ("wave_let_pooling_" ++ toString s.pid) LKind.wavePool],
      s.llAfter ++ [ll]⟩
  else
    ⟨x, s.skips, s.pid, ls, s.llAfter⟩

/-- Encoder state before the loop: the input layer and the first copied
convolution `block1_conv1_encode` (`model.py` lines 93, 113-114). -/
def encInit : EncBuild :=
  ⟨SymTensor.conv "block1_conv1_encode" SymTensor.inImg, [], 0,
    [⟨"in_img", LKind.inputL, true, WTag.noW, false⟩,
     convLayerSt "block1_conv1_encode" LKind.encodeConv], []⟩

/-- The encoder built by folding the loop body over `VGG_LAYERS[1:]`. -/
def encBuild : EncBuild := (VGG_LAYERS.drop 1).foldl encStep encInit

/-- The skip bundles pushed by the encoder, in creation order. -/
def encSkips : List (List SymTensor) := encBuild.skips

/-- Decoder construction state: current tensor, the running `skip_id`
(starts at 2, decremented after each unpooling; Python lets it reach
-1 unread, hence `ℤ`), the consumed skip indices in consumption order,
the `(unpooling layer name, skip index)` pairs, and the layer list. -/
structure DecBuild where
  x : SymTensor
  skipId : ℤ
  consumed : List ℤ
  pairs : List (String × ℤ)
  layers : List LayerSt

/-- One iteration of the decoder loop (`model.py` lines 126-135): at the
three designated layers, a channel-halving convolution followed by a
`WaveLetUnPooling` fed with `skips[skip_id]`; otherwise a plain
convolution. -/
def decStep (s : DecBuild) (layer : String) : DecBuild :=
  let name := layer ++ "_decode"
  if unpoolAtLayers.contains layer then
    let x1 := SymTensor.conv name s.x
    let b := encSkips.getD s.skipId.toNat []
    let original := b.getD 0 SymTensor.inImg
    let lh := b.getD 1 SymTensor.inImg
    let hl := b.getD 2 SymTensor.inImg
    let hh := b.getD 3 SymTensor.inImg
    let uname := "wave_let_unpooling_" ++ toString s.skipId.toNat
    ⟨SymTensor.unpoolT s.skipId.toNat x1 lh hl hh original, s.skipId - 1,
      s.consumed ++ [s.skipId], s.pairs ++ [(uname, s.skipId)],
      s.layers ++ [convLayerSt name LKind.decodeConv,
                   waveLayerSt uname LKind.waveUnpool]⟩
  else
    ⟨SymTensor.conv name s.x, s.skipId, s.consumed, s.pairs,
      s.layers ++ [convLayerSt name LKind.decodeConv]⟩

/-- The decoder built by folding over `VGG_LAYERS[::-1][:-1]` starting
from the encoder output with `skip_id = 2` (`model.py` lines 125-135). -/
def decBuild : DecBuild :=
  (VGG_LAYERS.reverse.dropLast).foldl decStep ⟨encBuild.x, 2, [], [], encBuild.layers⟩

/-- The skip indices consumed by the decoder, in consumption order. -/
def decConsumed : List ℤ := decBuild.consumed

/-- All layers of the built `wct` model before the freeze loop, ending
with the linear 3-channel `output` convolution (`model.py` line 137). -/
def wctLayersRaw : List LayerSt :=
  decBuild.layers ++ [convLayerSt "output" LKind.outputConv]

/-- The post-build freeze loop (`model.py` lines 141-146): every layer
whose name contains `"_encode"` gets the weights of the corresponding
VGG layer (name with `"_encode"` removed) and `trainable = False`. -/
def applyFreeze (l : LayerSt) : LayerSt :=
  if strContains l.name "_encode" then
    ⟨l.name, l.kind, false, WTag.vggCopy (strReplace l.name "_encode" ""), l.hasParams⟩
  else l

/-- The layer states of the built `wct` model as returned by
`build_wct_model`. -/
def wctModelLayers : List LayerSt := wctLayersRaw.map applyFreeze

/-- One optimizer step: Keras updates exactly the weights of layers that
are trainable and own parameters; all other layers are untouched. -/
def stepLayer (u : ℕ) (l : LayerSt) : LayerSt :=
  if l.trainable && l.hasParams then
    ⟨l.name, l.kind, l.trainable, WTag.updW u, l.hasParams⟩
  else l

/-- A training run: a sequence of optimizer steps applied to every layer
of the model. -/
def trainRun (us : List ℕ) (ls : List LayerSt) : List LayerSt :=
  us.foldl (fun acc u => acc.map (stepLayer u)) ls

/-- The frozen-encoder invariant of claim C6, as a predicate on a single
layer: encoder convolutions are non-trainable and carry the copied
backbone weights; decoder and output convolutions are trainable; the
wavelet ops own no parameters (hence contribute no trainable weights). -/
def layerSplitOk (l : LayerSt) : Prop :=
  (l.kind = LKind.encodeConv →
      l.trainable = false ∧ l.weights = WTag.vggCopy (strReplace l.name "_encode" "")) ∧
  ((l.kind = LKind.decodeConv ∨ l.kind = LKind.outputConv) → l.trainable = true) ∧
  ((l.kind = LKind.wavePool ∨ l.kind = LKind.waveUnpool) →
      l.hasParams = false ∧ (l.trainable && l.hasParams) = false)

instance (l : LayerSt) : Decidable (layerSplitOk l) := by
  unfold layerSplitOk; infer_instance

/-- Concrete encoder layer used to instantiate the C6 theorem. -/
def encDemoLayer : LayerSt :=
  ⟨"block1_conv1_encode", LKind.encodeConv, false, WTag.vggCopy "block1_conv1", true⟩

/-- Whether a symbolic tensor is one of the three high-frequency wavelet
sub-bands (LH, HL or HH: a pooling output with band index 1, 2 or 3). -/
def isHighFreqBand : SymTensor → Bool
  | SymTensor.poolBand _ 0 _ => false
  | SymTensor.poolBand _ _ _ => true
  | _ => false

/-- Whether a retained skip bundle consists of the pre-pooling original
tensor followed by exactly its three high-frequency sub-bands LH, HL,
HH of pooling stage `n`. -/
def goodBundle (n : ℕ) (b : List SymTensor) : Bool :=
  match b with
  | [orig, SymTensor.poolBand n1 k1 x1, SymTensor.poolBand n2 k2 x2,
     SymTensor.poolBand n3 k3 x3] =>
      decide (n1 = n) && decide (n2 = n) && decide (n3 = n)
        && decide (k1 = 1) && decide (k2 = 2) && decide (k3 = 3)
        && decide (x1 = orig) && decide (x2 = orig) && decide (x3 = orig)
  | _ => false

/-! ### Symbolic transcription of the staged transfer pipeline
(`model.py` lines 220-266 and `init_transfer_sequence`, lines 269-317) -/

/-- Values flowing through `transfer`: the two input images, the main
output of a staged predict function applied to one input, the `k`-th
skip output of a pooling stage, an unpooling stage applied to a main
input and four skip arguments, and a `WhiteningAndColoring` application
to a content/style pair. -/
inductive TVal where
  | contentImg : TVal
  | styleImg : TVal
  | app1 : String → TVal → TVal
  | skipOut : String → ℕ → TVal → TVal
  | appUnpool : String → TVal → TVal → TVal → TVal → TVal → TVal
  | wctApp : TVal → TVal → TVal
deriving DecidableEq

/-- The layer-name slices defining each staged predict function in
`init_transfer_sequence`. -/
def transferStageLayers : List (String × List String) :=
  [("en_1", ["in_img", "block1_conv1_encode"]),
   ("pool_1", ["block1_conv2_encode", "wave_let_pooling_0", "block2_conv1_encode"]),
   ("pool_2", ["block2_conv2_encode", "wave_let_pooling_1", "block3_conv1_encode"]),
   ("pool_3", ["block3_conv2_encode", "block3_conv3_encode", "block3_conv4_encode",
               "wave_let_pooling_2", "block4_conv1_encode"]),
   ("de_1", ["block4_conv1_decode"]),
   ("unpool_1", ["wave_let_unpooling_2", "block3_conv4_decode",
                 "block3_conv3_decode", "block3_conv2_decode"]),
   ("de_2", ["block3_conv1_decode"]),
   ("unpool_2", ["wave_let_unpooling_1", "block2_conv2_decode"]),
   ("de_3", ["block2_conv1_decode"]),
   ("unpool_3", ["wave_let_unpooling_0", "block1_conv2_decode"]),
   ("final", ["output"])]

/-- The wavelet layer wrapped by a staged predict function, if any. -/
def waveLayerOf (stage : String) : Option String :=
  match transferStageLayers.lookup stage with
  | some ls => ls.find? (fun s => leadMatch "wave_let".data s.data)
  | none => none

/-- Line 223: `content_feat = self.en_1([content_img])`. -/
def tcEn : TVal := TVal.app1 "en_1" TVal.contentImg

/-- Line 223: `style_feat = self.en_1([style_img])`. -/
def tsEn : TVal := TVal.app1 "en_1" TVal.styleImg

/-- Line 224: first WCT injection on the encoder outputs. -/
def tcEnW : TVal := TVal.wctApp tcEn tsEn

/-- Line 226: main output of `pool_1` on the content stream. -/
def tcP1 : TVal := TVal.app1 "pool_1" tcEnW

/-- Line 226: the `i`-th skip output of `pool_1` on the content stream. -/
def tcSk1 (i : ℕ) : TVal := TVal.skipOut "pool_1" i tcEnW

/-- Line 227: main output of `pool_1` on the style stream. -/
def tsP1 : TVal := TVal.app1 "pool_1" tsEn

/-- Line 227: the `i`-th skip output of `pool_1` on the style stream. -/
def tsSk1 (i : ℕ) : TVal := TVal.skipOut "pool_1" i tsEn

/-- Line 228: per-band WCT blending of the level-1 content skips. -/
def tcSk1W (i : ℕ) : TVal := TVal.wctApp (tcSk1 i) (tsSk1 i)

/-- Line 229: WCT on the level-1 main branches. -/
def tcP1W : TVal := TVal.wctApp tcP1 tsP1

/-- Line 231: main output of `pool_2` on the content stream. -/
def tcP2 : TVal := TVal.app1 "pool_2" tcP1W

/-- Line 231: the `i`-th skip output of `pool_2` on the content stream. -/
def tcSk2 (i : ℕ) : TVal := TVal.skipOut "pool_2" i tcP1W

/-- Line 232: main output of `pool_2` on the style stream. -/
def tsP2 : TVal := TVal.app1 "pool_2" tsP1

/-- Line 232: the `i`-th skip output of `pool_2` on the style stream. -/
def tsSk2 (i : ℕ) : TVal := TVal.skipOut "pool_2" i tsP1

/-- Line 233: per-band WCT blending of the level-2 content skips. -/
def tcSk2W (i : ℕ) : TVal := TVal.wctApp (tcSk2 i) (tsSk2 i)

/-- Line 234: WCT on the level-2 main branches. -/
def tcP2W : TVal := TVal.wctApp tcP2 tsP2

/-- Line 236: main output of `pool_3` on the content stream. -/
def tcP3 : TVal := TVal.app1 "pool_3" tcP2W

/-- Line 236: the `i`-th skip output of `pool_3` on the content stream. -/
def tcSk3 (i : ℕ) : TVal := TVal.skipOut "pool_3" i tcP2W

/-- Line 237: main output of `pool_3` on the style stream. -/
def tsP3 : TVal := TVal.app1 "pool_3" tsP2

/-- Line 237: the `i`-th skip output of `pool_3` on the style stream. -/
def tsSk3 (i : ℕ) : TVal := TVal.skipOut "pool_3" i tsP2

/-- Line 238: per-band WCT blending of the level-3 content skips. -/
def tcSk3W (i : ℕ) : TVal := TVal.wctApp (tcSk3 i) (tsSk3 i)

/-- Line 239: WCT on the level-3 main branches. -/
def tcP3W : TVal := TVal.wctApp tcP3 tsP3

/-- Line 243: `de_1` on the content stream. -/
def tcD1 : TVal := TVal.app1 "de_1" tcP3W

/-- Line 243: `de_1` on the style stream. -/
def tsD1 : TVal := TVal.app1 "de_1" tsP3

/-- Line 244: WCT after `de_1`. -/
def tcD1W : TVal := TVal.wctApp tcD1 tsD1

/-- Line 246: `unpool_1` on the content stream, fed the blended level-3
content skips. -/
def tcU1 : TVal :=
  TVal.appUnpool "unpool_1" tcD1W (tcSk3W 0) (tcSk3W 1) (tcSk3W 2) (tcSk3W 3)

/-- Line 247: `unpool_1` on the style stream, fed the raw level-3 style
skips. -/
def tsU1 : TVal :=
  TVal.appUnpool "unpool_1" tsD1 (tsSk3 0) (tsSk3 1) (tsSk3 2) (tsSk3 3)

/-- Line 248: WCT after `unpool_1`. -/
def tcU1W : TVal := TVal.wctApp tcU1 tsU1

/-- Line 249: `de_2` on the content stream. -/
def tcD2 : TVal := TVal.app1 "de_2" tcU1W

/-- Line 250: `de_2` on the style stream. -/
def tsD2 : TVal := TVal.app1 "de_2" tsU1

/-- Line 252: `unpool_2` on the content stream, fed the blended level-2
content skips. -/
def tcU2 : TVal :=
  TVal.appUnpool "unpool_2" tcD2 (tcSk2W 0) (tcSk2W 1) (tcSk2W 2) (tcSk2W 3)

/-- Line 253: `unpool_2` on the style stream. -/
def tsU2 : TVal :=
  TVal.appUnpool "unpool_2" tsD2 (tsSk2 0) (tsSk2 1) (tsSk2 2) (tsSk2 3)

/-- Line 254: WCT after `unpool_2`. -/
def tcU2W : TVal := TVal.wctApp tcU2 tsU2

/-- Line 255: `de_3` on the content stream. -/
def tcD3 : TVal := TVal.app1 "de_3" tcU2W

/-- Line 256: `de_3` on the style stream. -/
def tsD3 : TVal := TVal.app1 "de_3" tsU2

/-- Line 258: `unpool_3` on the content stream, fed the blended level-1
content skips. -/
def tcU3 : TVal :=
  TVal.appUnpool "unpool_3" tcD3 (tcSk1W 0) (tcSk1W 1) (tcSk1W 2) (tcSk1W 3)

/-- Line 259: `unpool_3` on the style stream. -/
def tsU3 : TVal :=
  TVal.appUnpool "unpool_3" tsD3 (tsSk1 0) (tsSk1 1) (tsSk1 2) (tsSk1 3)

/-- Line 261: WCT after `unpool_3`. -/
def tcU3W : TVal := TVal.wctApp tcU3 tsU3

/-- Line 264: the final stage producing the output image tensor. -/
def tcOut : TVal := TVal.app1 "final" tcU3W

/-- The pooling stage that produced a skip value, looking through the
per-band WCT blending wrapper if present. -/
def skipStageOf : TVal → Option String
  | TVal.wctApp (TVal.skipOut n _ _) _ => some n
  | TVal.skipOut n _ _ => some n
  | _ => none

/-- The provenance of the four skip arguments of an unpooling stage. -/
def unpoolSkipSources : TVal → List (Option String)
  | TVal.appUnpool _ _ a b c d =>
      [skipStageOf a, skipStageOf b, skipStageOf c, skipStageOf d]
  | _ => []

/-! ### Shape semantics of the staged transfer pipeline -/

/-- The `(height, width, channels)` shape of a feature tensor (the batch
dimension is fixed at 1 throughout `transfer`). -/
structure TShape where
  h : ℕ
  w : ℕ
  c : ℕ
deriving DecidableEq

/-- A same-padding stride-1 `Conv2D` keeps the spatial extent and sets the
channel count to its filter count (`conv_block`, `model.py` lines 72-77). -/
def convShape (filters : ℕ) (s : TShape) : TShape := ⟨s.h, s.w, filters⟩

/-- Modelled from the spec: wavelet decomposition halves both spatial
dimensions, keeping the channel count (§4.1). -/
def poolShape (s : TShape) : TShape := ⟨s.h / 2, s.w / 2, s.c⟩

/-- Modelled from the spec: wavelet reconstruction produces a tensor at
the original reference tensor's resolution with the main branch's
channel count (§4.1). -/
def unpoolShape (x _lh _hl _hh original : TShape) : TShape :=
  ⟨original.h, original.w, x.c⟩

/-- `WhiteningAndColoring` returns a tensor of the content input's shape
(spec §4.2: output reshaped back to the content shape). -/
def wctShape (c _s : TShape) : TShape := c

/-- A skip bundle's shapes in storage order `[original, lh, hl, hh]`. -/
def SkShapes := TShape × TShape × TShape × TShape

/-- Stage `en_1` (`in_img`, `block1_conv1_encode`; 64 filters). -/
def en1Shape (s : TShape) : TShape := convShape 64 s

/-- Stage `pool_1` (`block1_conv2_encode` 64 filters, `wave_let_pooling_0`,
`block2_conv1_encode` 128 filters): returns the main output shape and
the skip bundle shapes. -/
def pool1Shape (s : TShape) : TShape × SkShapes :=
  let pre := convShape 64 s
  let b := poolShape pre
  (convShape 128 b, (pre, b, b, b))

/-- Stage `pool_2` (`block2_conv2_encode` 128, `wave_let_pooling_1`,
`block3_conv1_encode` 256). -/
def pool2Shape (s : TShape) : TShape × SkShapes :=
  let pre := convShape 128 s
  let b := poolShape pre
  (convShape 256 b, (pre, b, b, b))

/-- Stage `pool_3` (`block3_conv2/3/4_encode` 256 each, `wave_let_pooling_2`,
`block4_conv1_encode` 512). -/
def pool3Shape (s : TShape) : TShape × SkShapes :=
  let pre := convShape 256 (convShape 256 (convShape 256 s))
  let b := poolShape pre
  (convShape 512 b, (pre, b, b, b))

/-- Stage `de_1` (`block4_conv1_decode`, channel-halving 512//2 = 256). -/
def de1Shape (s : TShape) : TShape := convShape 256 s

/-- Stage `unpool_1` (`wave_let_unpooling_2` then `block3_conv4/3/2_decode`,
256 filters each). -/
def unpool1Shape (x : TShape) (sk : SkShapes) : TShape :=
  convShape 256 (convShape 256 (convShape 256
    (unpoolShape x sk.2.1 sk.2.2.1 sk.2.2.2 sk.1)))

/-- Stage `de_2` (`block3_conv1_decode`, channel-halving 256//2 = 128). -/
def de2Shape (s : TShape) : TShape := convShape 128 s

/-- Stage `unpool_2` (`wave_let_unpooling_1` then `block2_conv2_decode`,
128 filters). -/
def unpool2Shape (x : TShape) (sk : SkShapes) : TShape :=
  convShape 128 (unpoolShape x sk.2.1 sk.2.2.1 sk.2.2.2 sk.1)

/-- Stage `de_3` (`block2_conv1_decode`, channel-halving 128//2 = 64). -/
def de3Shape (s : TShape) : TShape := convShape 64 s

/-- Stage `unpool_3` (`wave_let_unpooling_0` then `block1_conv2_decode`,
64 filters). -/
def unpool3Shape (x : TShape) (sk : SkShapes) : TShape :=
  convShape 64 (unpoolShape x sk.2.1 sk.2.2.1 sk.2.2.2 sk.1)

/-- Stage `final` (`output`, linear convolution to 3 channels). -/
def finalShape (s : TShape) : TShape := convShape 3 s

/-- Per-band WCT blending of a skip bundle keeps the content shapes. -/
def wctSkShapes (c s : SkShapes) : SkShapes :=
  (wctShape c.1 s.1, wctShape c.2.1 s.2.1,
   wctShape c.2.2.1 s.2.2.1, wctShape c.2.2.2 s.2.2.2)

/-- Shape-level transcription of `transfer` (`model.py` lines 220-266):
both streams traverse the same staged pipeline, WCT is injected on the
content stream at every stage boundary, and the last blended feature is
pushed through the final stage. -/
def transferShape (contentImg styleImg : TShape) : TShape :=
  let cf0 := en1Shape contentImg
  let sf0 := en1Shape styleImg
  let cf0w := wctShape cf0 sf0
  let cp1 := pool1Shape cf0w
  let sp1 := pool1Shape sf0
  let cs1 := wctSkShapes cp1.2 sp1.2
  let cf1 := wctShape cp1.1 sp1.1
  let cp2 := pool2Shape cf1
  let sp2 := pool2Shape sp1.1
  let cs2 := wctSkShapes cp2.2 sp2.2
  let cf2 := wctShape cp2.1 sp2.1
  let cp3 := pool3Shape cf2
  let sp3 := pool3Shape sp2.1
  let cs3 := wctSkShapes cp3.2 sp3.2
  let cf3 := wctShape cp3.1 sp3.1
  let cd1 := de1Shape cf3
  let sd1 := de1Shape sp3.1
  let cd1w := wctShape cd1 sd1
  let cu1 := unpool1Shape cd1w cs3
  let su1 := unpool1Shape sd1 sp3.2
  let cu1w := wctShape cu1 su1
  let cd2 := de2Shape cu1w
  let sd2 := de2Shape su1
  let cu2 := unpool2Shape cd2 cs2
  let su2 := unpool2Shape sd2 sp2.2
  let cu2w := wctShape cu2 su2
  let cd3 := de3Shape cu2w
  let sd3 := de3Shape su2
  let cu3 := unpool3Shape cd3 cs1
  let su3 := unpool3Shape sd3 sp1.2
  let cu3w := wctShape cu3 su3
  finalShape cu3w

/-! ### Whitening-and-coloring transform (spec-modelled, `ops.py`) -/

/-- Per-channel mean of the spatially flattened features (spec §4.2).
The row index ranges over the `H·W` flattened spatial positions, the
column index over the `k` channels. -/
noncomputable def channelMean {n k : ℕ} (X : Matrix (Fin n) (Fin k) ℝ) (c : Fin k) : ℝ :=
  (∑ i, X i c) / n

/-- The per-channel centered feature matrix. -/
noncomputable def centered {n k : ℕ} (X : Matrix (Fin n) (Fin k) ℝ) :
    Matrix (Fin n) (Fin k) ℝ :=
  fun i c => X i c - channelMean X c

/-- The small diagonal regularization epsilon of spec §4.2. -/
noncomputable def covEps : ℝ := 1 / 100000

/-- The regularized per-channel covariance of the flattened features
(spec §4.2): `XᵀX` of the centered features scaled by the number of
spatial positions, plus a small multiple of the identity.  Over `ℝ` the
conjugate transpose coincides with the transpose. -/
noncomputable def covariance {n k : ℕ} (X : Matrix (Fin n) (Fin k) ℝ) :
    Matrix (Fin k) (Fin k) ℝ :=
  ((1 : ℝ) / n) • ((centered X).conjTranspose * centered X)
    + covEps • (1 : Matrix (Fin k) (Fin k) ℝ)

/-- Scaling a positive semidefinite real matrix by a nonnegative scalar
preserves positive semidefiniteness; proof term used to build the
covariance square roots. -/
def posSemidefSmul {k : ℕ} {M : Matrix (Fin k) (Fin k) ℝ} (hM : M.PosSemidef)
    {c : ℝ} (hc : 0 ≤ c) : (c • M).PosSemidef := by
  refine ⟨?_, fun x => ?_⟩
  · have h1 : (c • M).conjTranspose = star c • M.conjTranspose :=
      Matrix.conjTranspose_smul c M
    show (c • M).conjTranspose = c • M
    rw [h1, star_trivial, hM.1.eq]
  · have h2 : (c • M).mulVec x = c • (M.mulVec x) := Matrix.smul_mulVec_assoc c M x
    rw [h2, Matrix.dotProduct_smul, smul_eq_mul]
    exact mul_nonneg hc (hM.2 x)

/-- The regularized covariance is positive semidefinite, so its unique
positive semidefinite square root exists. -/
def covariancePosSemidef {n k : ℕ} (X : Matrix (Fin n) (Fin k) ℝ) :
    (covariance X).PosSemidef := by
  unfold covariance
  refine Matrix.PosSemidef.add ?_ ?_
  · exact posSemidefSmul (Matrix.posSemidef_conjTranspose_mul_self _) (by positivity)
  · exact posSemidefSmul Matrix.PosSemidef.one (by norm_num [covEps])

/-- Modelled from the spec: the whiten-then-color core of
`WhiteningAndColoring` (`ops.py`, not under `src/`).  Per §4.2 the
content features are centered, decorrelated through the inverse square
root of the content covariance, recolored with the square root of the
style covariance, and shifted by the style mean. -/
noncomputable def wctColored {n k : ℕ} (C S : Matrix (Fin n) (Fin k) ℝ) :
    Matrix (Fin n) (Fin k) ℝ :=
  fun i c =>
    (centered C * (covariancePosSemidef C).sqrt⁻¹ * (covariancePosSemidef S).sqrt) i c
      + channelMean S c

/-- Modelled from the spec: `WhiteningAndColoring(alpha)` applied to a
content/style pair blends the colored features with the original
content: `output = α · colored + (1 − α) · content` (§4.2). -/
noncomputable def WhiteningAndColoring {n k : ℕ} (alpha : ℝ)
    (C S : Matrix (Fin n) (Fin k) ℝ) : Matrix (Fin n) (Fin k) ℝ :=
  alpha • wctColored C S + (1 - alpha) • C

/-! ### Gram-matrix style loss (`model.py` lines 56-69) -/

/-- A multi-channel feature map produced by one backbone layer. -/
structure Feat where
  h : ℕ
  w : ℕ
  c : ℕ
  data : ℕ → ℕ → ℕ → ℚ

/-- Modelled from the spec: `gram_matrix` of `ops.py` is not under
`src/`.  Per §4.3 the Gram matrix is the channel-correlation matrix
`XᵀX` of the spatially flattened features, normalized by `H·W·C`. -/
def gram_matrix (f : Feat) : ℕ → ℕ → ℚ := fun a b =>
  (∑ i ∈ Finset.range f.h, ∑ j ∈ Finset.range f.w, f.data i j a * f.data i j b)
    / (f.h * f.w * f.c)

/-- Mean of the squared entrywise difference of two `c × c` Gram matrices
(`K.mean(K.square(gram_gen[i] - gram_in[i]))`, `model.py` line 64). -/
def gramSqMean (g1 g2 : ℕ → ℕ → ℚ) (c : ℕ) : ℚ :=
  (∑ a ∈ Finset.range c, ∑ b ∈ Finset.range c, (g1 a b - g2 a b) ^ 2) / (c * c)

/-- The gram loss (`model.py` lines 56-69): encoder features of the
generated and the original image, per-layer mean squared Gram
differences, summed (`TfReduceSum`) and divided by the number of style
layers. -/
def gram_loss {Img : Type} (encoder : Img → List Feat) (img gen_img : Img) : ℚ :=
  let featGens := encoder gen_img
  let feats := encoder img
  let lossList := (featGens.zip feats).map
    (fun p => gramSqMean (gram_matrix p.1) (gram_matrix p.2) p.1.c)
  lossList.sum / featGens.length

/-! ### Weight persistence (`model.py` lines 206-217) -/

/-- Modelled from the spec: the persistence backend (Keras
`save_weights`) is external; a call either succeeds or raises.
`save_weight` wraps it in try/except, printing the failure message and
leaving the model untouched (`model.py` lines 206-210). -/
def save_weight (m : List LayerSt) (saveOp : List LayerSt → Except String Unit) :
    List LayerSt × Option String :=
  match saveOp m with
  | Except.ok _ => (m, none)
  | Except.error e => (m, some ("Save model failed, " ++ e))

/-- Modelled from the spec: `load_weight` wraps the external load in
try/except; on success the stored weights replace the model's layers,
on failure the message is reported and the weights stay at their
initialization (`model.py` lines 213-217 and spec §7). -/
def load_weight (m : List LayerSt) (loadOp : Except String (List LayerSt)) :
    List LayerSt × Option String :=
  match loadOp with
  | Except.ok ws => (ws, none)
  | Except.error e => (m, some ("Could not load model, " ++ e))

/-! ### Training loop events (`model.py` lines 159-193) -/

/-- Observable events of the training loop: the per-epoch loss print, a
weight save, and a visual sample emission. -/
inductive TrainEvent where
  | epochEnd : ℕ → TrainEvent
  | saveW : ℕ → TrainEvent
  | showSample : ℕ → TrainEvent
deriving DecidableEq

/-- The events of epoch `e`: the loss print, then — exactly when
`e % self.show_interval == 0` — the weight save and the visual sample
(`model.py` lines 181-191). -/
def epochEvents (show_interval e : ℕ) : List TrainEvent :=
  [TrainEvent.epochEnd e] ++
    (if e % show_interval = 0 then [TrainEvent.saveW e, TrainEvent.showSample e]
     else [])

/-- The event trace of `train(data_gen, epochs)`: epochs `0 .. epochs-1`
in order (`for e in range(epochs)`, `model.py` line 163). -/
def trainTrace (show_interval epochs : ℕ) : List TrainEvent :=
  (List.range epochs).flatMap (epochEvents show_interval)

/-! ### Helper lemmas -/

/-- An optimizer step leaves every layer of the frozen/trainable split
predicate invariant: frozen or parameter-free layers are untouched, and
the step never changes a layer's name, kind or flags. -/
theorem layerSplitOk_step (u : ℕ) {l : LayerSt} (h : layerSplitOk l) :
    layerSplitOk (stepLayer u l) := by
  unfold layerSplitOk at *
  unfold stepLayer
  by_cases hc : (l.trainable && l.hasParams) = true
  · simp only [hc, if_pos]
    refine ⟨fun hk => ?_, fun hk => h.2.1 hk, fun hk => ?_⟩
    · have := (h.1 hk).1
      rw [this] at hc
      simp at hc
    · have := (h.2.2 hk).1
      rw [this] at hc
      simp at hc
  · simp only [hc, if_neg]
    exact h

/-- A whole training run preserves the frozen/trainable split on every
layer. -/
theorem trainRun_preserves (us : List ℕ) (ls : List LayerSt)
    (h : ∀ l ∈ ls, layerSplitOk l) : ∀ l ∈ trainRun us ls, layerSplitOk l := by
  induction us generalizing ls with
  | nil => simpa [trainRun] using h
  | cons u us ih =>
      have h2 : ∀ l ∈ ls.map (stepLayer u), layerSplitOk l := by
        intro l hl
        rcases List.mem_map.mp hl with ⟨a, ha, rfl⟩
        exact layerSplitOk_step u (h a ha)
      simpa [trainRun] using ih (ls.map (stepLayer u)) h2

/-- Summing a function that vanishes on equal pairs over the zip of a
list with itself gives zero. -/
theorem zipSelfMapSumZero {α : Type} (f : α × α → ℚ) (hf : ∀ a, f (a, a) = 0) :
    ∀ l : List α, ((l.zip l).map f).sum = 0
  | [] => by simp
  | a :: l => by
      simp [List.zip_cons_cons, hf a, zipSelfMapSumZero f hf l]

/-- The mean squared difference of a Gram matrix with itself is zero. -/
theorem gramSqMean_self (g : ℕ → ℕ → ℚ) (c : ℕ) : gramSqMean g g c = 0 := by
  simp [gramSqMean]

/-- A save event for epoch `e` appears among epoch `e'`'s events exactly
when `e = e'` and the interval test fires at `e'`. -/
theorem saveW_mem_epochEvents (si e e' : ℕ) :
    TrainEvent.saveW e ∈ epochEvents si e' ↔ (e = e' ∧ e' % si = 0) := by
  unfold epochEvents
  by_cases h : e' % si = 0 <;> simp [h]

/-! ### Claim theorems -/

/-- C1: for every feature tensor with even spatial dimensions,
reconstructing with the unmodified four sub-bands produced by
decomposition, with the tensor itself as the original reference, is the
exact identity: shape and every in-bounds entry are recovered. -/
theorem wavelet_round_trip_identity (t : FTensor) (_h2h : 2 ∣ t.h) (_h2w : 2 ∣ t.w) :
    (WaveLetUnPooling (WaveLetPooling t).1 (WaveLetPooling t).2.1
        (WaveLetPooling t).2.2.1 (WaveLetPooling t).2.2.2 t).h = t.h ∧
    (WaveLetUnPooling (WaveLetPooling t).1 (WaveLetPooling t).2.1
        (WaveLetPooling t).2.2.1 (WaveLetPooling t).2.2.2 t).w = t.w ∧
    ∀ p q, p < t.h → q < t.w →
      (WaveLetUnPooling (WaveLetPooling t).1 (WaveLetPooling t).2.1
          (WaveLetPooling t).2.2.1 (WaveLetPooling t).2.2.2 t).data p q = t.data p q := by
  refine ⟨rfl, rfl, fun p q hp hq => ?_⟩
  simp only [WaveLetPooling, WaveLetUnPooling]
  rcases Nat.even_or_odd p with ⟨i, hpi⟩ | ⟨i, hpi⟩ <;>
    rcases Nat.even_or_odd q with ⟨j, hqj⟩ | ⟨j, hqj⟩ <;> subst hpi <;> subst hqj
  · rw [show i + i = 2 * i from by omega, show j + j = 2 * j from by omega,
      show 2 * i / 2 = i from by omega, show 2 * j / 2 = j from by omega,
      show 2 * i % 2 = 0 from by omega, show 2 * j % 2 = 0 from by omega]
    norm_num
    ring
  · rw [show i + i = 2 * i from by omega,
      show 2 * i / 2 = i from by omega, show (2 * j + 1) / 2 = j from by omega,
      show 2 * i % 2 = 0 from by omega, show (2 * j + 1) % 2 = 1 from by omega]
    norm_num
    ring
  · rw [show j + j = 2 * j from by omega,
      show (2 * i + 1) / 2 = i from by omega, show 2 * j / 2 = j from by omega,
      show (2 * i + 1) % 2 = 1 from by omega, show 2 * j % 2 = 0 from by omega]
    norm_num
    ring
  · rw [show (2 * i + 1) / 2 = i from by omega, show (2 * j + 1) / 2 = j from by omega,
      show (2 * i + 1) % 2 = 1 from by omega, show (2 * j + 1) % 2 = 1 from by omega]
    norm_num
    ring

/-- Witness for C1 at the concrete even-dimension tensor `wdemoTensor`. -/
theorem wavelet_round_trip_identity_witness :
    (2 ∣ wdemoTensor.h) ∧ (2 ∣ wdemoTensor.w) ∧
    (WaveLetUnPooling (WaveLetPooling wdemoTensor).1 (WaveLetPooling wdemoTensor).2.1
        (WaveLetPooling wdemoTensor).2.2.1 (WaveLetPooling wdemoTensor).2.2.2
        wdemoTensor).data 1 1 = wdemoTensor.data 1 1 :=
  ⟨by decide, by decide,
    (wavelet_round_trip_identity wdemoTensor (by decide) (by decide)).2.2 1 1
      (by decide) (by decide)⟩

/-- C2: both in the built graph and in the staged transfer pipeline the
pooling/unpooling stages pair in strict LIFO order.  In the graph the
decoder consumes skip bundles `2, 1, 0`, i.e. last pushed first popped,
with `wave_let_unpooling_j` consuming bundle `j`.  In the pipeline the
skip arguments of `unpool_1`/`unpool_2`/`unpool_3` all come from
`pool_3`/`pool_2`/`pool_1` respectively, and each staged predict
function wraps a wavelet layer confirming the same pairing: `pool_n`
wraps `wave_let_pooling_{n-1}` while `unpool_k` wraps
`wave_let_unpooling_{3-k}`. -/
theorem pooling_unpooling_lifo_pairing :
    decConsumed = [2, 1, 0] ∧
    decBuild.pairs = [("wave_let_unpooling_2", 2), ("wave_let_unpooling_1", 1),
                      ("wave_let_unpooling_0", 0)] ∧
    encSkips.length = 3 ∧
    unpoolSkipSources tcU1 = List.replicate 4 (some "pool_3") ∧
    unpoolSkipSources tcU2 = List.replicate 4 (some "pool_2") ∧
    unpoolSkipSources tcU3 = List.replicate 4 (some "pool_1") ∧
    unpoolSkipSources tsU1 = List.replicate 4 (some "pool_3") ∧
    unpoolSkipSources tsU2 = List.replicate 4 (some "pool_2") ∧
    unpoolSkipSources tsU3 = List.replicate 4 (some "pool_1") ∧
    waveLayerOf "pool_1" = some "wave_let_pooling_0" ∧
    waveLayerOf "pool_2" = some "wave_let_pooling_1" ∧
    waveLayerOf "pool_3" = some "wave_let_pooling_2" ∧
    waveLayerOf "unpool_1" = some "wave_let_unpooling_2" ∧
    waveLayerOf "unpool_2" = some "wave_let_unpooling_1" ∧
    waveLayerOf "unpool_3" = some "wave_let_unpooling_0" := by decide

/-- Counterexample to C3 as stated: the first pooling stage's retained
skip bundle is not exactly the three high-frequency sub-bands — it has
four entries, and its first entry (the pre-pooling original tensor) is
not a high-frequency band. -/
theorem skip_bundle_not_three_subbands :
    ¬ ((encSkips.getD 0 []).length = 3 ∧
       (encSkips.getD 0 []).all isHighFreqBand = true) := by decide

/-- C3 (amended): each pooling stage retains its three high-frequency
sub-bands LH, HL, HH together with the pre-pooling original tensor as
the skip bundle; the LL band alone continues through the network; and
each retained bundle is consumed by exactly one unpooling stage, at the
symmetric decoder depth. -/
theorem skip_bundle_retains_original_and_subbands :
    encSkips.length = 3 ∧
    goodBundle 0 (encSkips.getD 0 []) = true ∧
    goodBundle 1 (encSkips.getD 1 []) = true ∧
    goodBundle 2 (encSkips.getD 2 []) = true ∧
    (encSkips.getD 0 []).map isHighFreqBand = [false, true, true, true] ∧
    (encSkips.getD 1 []).map isHighFreqBand = [false, true, true, true] ∧
    (encSkips.getD 2 []).map isHighFreqBand = [false, true, true, true] ∧
    encBuild.llAfter =
      [SymTensor.poolBand 0 0 ((encSkips.getD 0 []).getD 0 SymTensor.inImg),
       SymTensor.poolBand 1 0 ((encSkips.getD 1 []).getD 0 SymTensor.inImg),
       SymTensor.poolBand 2 0 ((encSkips.getD 2 []).getD 0 SymTensor.inImg)] ∧
    decConsumed.count 0 = 1 ∧ decConsumed.count 1 = 1 ∧ decConsumed.count 2 = 1 ∧
    decConsumed = [2, 1, 0] := by decide

/-- C4: the whitening-and-coloring transform blends as
`output = α · colored + (1 − α) · content`, and in particular at
`alpha = 0` it returns the content tensor exactly. -/
theorem wct_blend_formula_alpha_zero :
    (∀ (n k : ℕ) (alpha : ℝ) (C S : Matrix (Fin n) (Fin k) ℝ),
        WhiteningAndColoring alpha C S = alpha • wctColored C S + (1 - alpha) • C) ∧
    (∀ (n k : ℕ) (C S : Matrix (Fin n) (Fin k) ℝ),
        WhiteningAndColoring 0 C S = C) := by
  refine ⟨fun n k alpha C S => rfl, fun n k C S => ?_⟩
  unfold WhiteningAndColoring
  simp

/-- C5: on 256×256×3 content and style inputs the staged transfer
pipeline produces a 256×256×3 output. -/
theorem transfer_output_shape_256 :
    transferShape ⟨256, 256, 3⟩ ⟨256, 256, 3⟩ = ⟨256, 256, 3⟩ := by decide

/-- C6: in the built model every encoder convolution is frozen with the
copied backbone weights, every decoder convolution and the output
convolution are trainable, the wavelet ops are parameter-free (hence
contribute no trainable weights), and the split is preserved by every
training run. -/
theorem frozen_split_invariant :
    (∀ l ∈ wctModelLayers, layerSplitOk l) ∧
    ∀ us : List ℕ, ∀ l ∈ trainRun us wctModelLayers, layerSplitOk l := by
  have h0 : ∀ l ∈ wctModelLayers, layerSplitOk l := by decide
  exact ⟨h0, fun us => trainRun_preserves us wctModelLayers h0⟩

/-- Witness for C6 at the concrete frozen encoder layer
`block1_conv1_encode`. -/
theorem frozen_split_invariant_witness :
    encDemoLayer ∈ wctModelLayers ∧ encDemoLayer.kind = LKind.encodeConv ∧
    encDemoLayer.trainable = false ∧
    encDemoLayer.weights = WTag.vggCopy "block1_conv1" := by
  have hm : encDemoLayer ∈ wctModelLayers := by decide
  refine ⟨hm, by decide, ((frozen_split_invariant.1 encDemoLayer hm).1 (by decide)).1, ?_⟩
  have h := ((frozen_split_invariant.1 encDemoLayer hm).1 (by decide)).2
  exact h.trans (by decide)

/-- C7: a failure raised inside weight persistence is caught by both
`save_weight` and `load_weight`, which report it and return normally;
after a failed load the model's layers are unchanged and any subsequent
training run proceeds exactly as on the original model. -/
theorem persistence_failures_nonfatal (m : List LayerSt) (e : String) (us : List ℕ) :
    save_weight m (fun _ => Except.error e) = (m, some ("Save model failed, " ++ e)) ∧
    load_weight m (Except.error e) = (m, some ("Could not load model, " ++ e)) ∧
    trainRun us (load_weight m (Except.error e)).1 = trainRun us m :=
  ⟨rfl, rfl, rfl⟩

/-- C8: wavelet decomposition fails with `ShapeError` exactly on inputs
whose spatial dimensions are not both divisible by 2, and wavelet
reconstruction fails with `ShapeError` exactly when the sub-band shapes
are mismatched; all other inputs succeed. -/
theorem wavelet_shape_error_iff :
    (∀ t : FTensor,
        waveLetPoolingChecked t = Except.error ShapeError.mk ↔ ¬ (2 ∣ t.h ∧ 2 ∣ t.w)) ∧
    (∀ ll lh hl hb orig : FTensor,
        waveLetUnPoolingChecked ll lh hl hb orig = Except.error ShapeError.mk ↔
          ¬ (sameShape ll lh ∧ sameShape ll hl ∧ sameShape ll hb)) := by
  constructor
  · intro t
    unfold waveLetPoolingChecked
    split_ifs with h <;> simp [h]
  · intro ll lh hl hb orig
    unfold waveLetUnPoolingChecked
    split_ifs with h <;> simp [h]

/-- C9: the gram loss of any image against itself is exactly zero, for
every encoder. -/
theorem gram_loss_self_zero {Img : Type} (encoder : Img → List Feat) (img : Img) :
    gram_loss encoder img img = 0 := by
  unfold gram_loss
  have h := zipSelfMapSumZero
    (fun p => gramSqMean (gram_matrix p.1) (gram_matrix p.2) p.1.c)
    (fun a => gramSqMean_self (gram_matrix a) a.c) (encoder img)
  simp only [h, zero_div]

/-- C10: for every positive interval and epoch count, the training loop
saves the weights and emits a visual sample in epoch 0 (since
`0 % show_interval == 0`), and thereafter the save fires exactly on the
epochs divisible by the interval. -/
theorem train_first_epoch_fires (show_interval epochs : ℕ)
    (_h1 : 1 ≤ show_interval) (h2 : 1 ≤ epochs) :
    TrainEvent.saveW 0 ∈ trainTrace show_interval epochs ∧
    TrainEvent.showSample 0 ∈ trainTrace show_interval epochs ∧
    ∀ e, TrainEvent.saveW e ∈ trainTrace show_interval epochs ↔
      (e < epochs ∧ e % show_interval = 0) := by
  have key : ∀ e, TrainEvent.saveW e ∈ trainTrace show_interval epochs ↔
      (e < epochs ∧ e % show_interval = 0) := by
    intro e
    unfold trainTrace
    rw [List.mem_flatMap]
    constructor
    · rintro ⟨e', he', hmem⟩
      rcases (saveW_mem_epochEvents show_interval e e').mp hmem with ⟨rfl, hmod⟩
      exact ⟨List.mem_range.mp he', hmod⟩
    · rintro ⟨hlt, hmod⟩
      exact ⟨e, List.mem_range.mpr hlt,
        (saveW_mem_epochEvents show_interval e e).mpr ⟨rfl, hmod⟩⟩
  refine ⟨(key 0).mpr ⟨h2, Nat.zero_mod _⟩, ?_, key⟩
  unfold trainTrace
  rw [List.mem_flatMap]
  exact ⟨0, List.mem_range.mpr h2, by simp [epochEvents]⟩

/-- Witness for C10 at the source defaults `show_interval = 25` with a
single epoch. -/
theorem train_first_epoch_fires_witness :
    1 ≤ 25 ∧ 1 ≤ 1 ∧ TrainEvent.saveW 0 ∈ trainTrace 25 1 ∧
    TrainEvent.showSample 0 ∈ trainTrace 25 1 :=
  ⟨by decide, by decide, (train_first_epoch_fires 25 1 (by decide) (by decide)).1,
    (train_first_epoch_fires 25 1 (by decide) (by decide)).2.1⟩
